import Mathlib

/-
Verification of the aloha_backend pagination / query / transactional
data-access core.

The definitions below are a shallow embedding of the Rust sources:
  src/dto/pagination.rs, src/dto/query.rs, src/dto/response.rs,
  src/configuration.rs, src/routes/mod.rs, src/mappers/(full set),
  src/routes/auth.rs, src/routes/permission.rs, src/routes/user_group.rs,
  src/error.rs.

Modelling conventions:
  - Uuid values are modelled as Nat (only equality on them is ever used).
  - usize values are modelled as Nat.  The one place where usize underflow
    is reachable, the subtraction in offset(), is modelled by the checked
    subtraction usizeSub (none models the debug-build panic / release-build
    wraparound of page() - 1 when page() = 0).  The i64 -> usize cast
    performed on the total in Pagination::new is modelled exactly as the
    two's-complement reinterpretation, because it changes the observable
    behaviour for negative totals.
  - The process-global configuration read by Pagination::new through
    get_configuration() is threaded as an explicit Settings argument.
  - Timestamps and server-generated ids are drawn from a per-database
    counter (clock), modelling the value generator of the store
    (now() / gen_random_uuid() column defaults).
-/

namespace Aloha

/-- Application settings (struct ApplicationSettings, src/configuration.rs);
only the fields read by the pagination core are modelled. -/
structure ApplicationSettings where
  port : Nat
  host : String
  base_url : String
deriving DecidableEq

/-- Configured route path segments (struct Routes, src/routes/mod.rs,
loaded from configuration/route.toml). -/
structure Routes where
  health_check : String
  user_groups : String
  user_group : String
  users : String
  user : String
  tweets : String
  tweet : String
  user_tweets : String
deriving DecidableEq

/-- Process configuration (struct Settings, src/configuration.rs). -/
structure Settings where
  application : ApplicationSettings
  routes : Routes
deriving DecidableEq

/-- struct Pagination, src/dto/pagination.rs. -/
structure Pagination where
  page : Option Nat
  size : Option Nat
  total : Option Int
  prev_page : Option String
  next_page : Option String
deriving DecidableEq

/-- The Rust cast t as usize on an i64 value t: two's-complement
reinterpretation into the unsigned 64-bit range. -/
def i64AsUsize (t : Int) : Nat := (t.emod (2 ^ 64)).toNat

/-- The Rust cast n as i64 on a usize value n. -/
def usizeAsI64 (n : Nat) : Int :=
  if n < 2 ^ 63 then (n : Int) else (n : Int) - 2 ^ 64

/-- Checked usize subtraction: none models the underflow panic of a - b in a
debug build (reachable in offset() when page() = 0). -/
def usizeSub (a b : Nat) : Option Nat :=
  if b ≤ a then some (a - b) else none

/-- The link string built by the format! calls in Pagination::new:
"base_url:port/route?page=p&size=s". -/
def pageLink (c : Settings) (route : String) (page size : Nat) : String :=
  c.application.base_url ++ ":" ++ toString c.application.port ++ "/" ++ route
    ++ "?page=" ++ toString page ++ "&size=" ++ toString size

/-- Pagination::new (src/dto/pagination.rs, lines 14-55).  Note that both
links are built from config.routes.user_groups, whatever entity the caller
is listing. -/
def Pagination.new (c : Settings) (page size : Option Nat) (total : Option Int) :
    Pagination :=
  let page := page.getD 1
  let size := size.getD 10
  let total := i64AsUsize (total.getD 0)
  let prev_page :=
    if page > 1 then some (pageLink c c.routes.user_groups (page - 1) size)
    else none
  let next_page :=
    if page * size < total then some (pageLink c c.routes.user_groups (page + 1) size)
    else none
  { page := some page, size := some size, total := some (usizeAsI64 total),
    prev_page := prev_page, next_page := next_page }

/-- Pagination::default_p (src/dto/pagination.rs, lines 57-65). -/
def Pagination.default_p : Pagination :=
  { page := some 1, size := some 10, total := some 0,
    prev_page := some "", next_page := some "" }

/-- Pagination::page() (the method, not the field): page.unwrap_or(1). -/
def Pagination.pageD (p : Pagination) : Nat := p.page.getD 1

/-- Pagination::size(): size.unwrap_or(10). -/
def Pagination.sizeD (p : Pagination) : Nat := p.size.getD 10

/-- Pagination::offset(): (page() - 1) * size() in usize arithmetic. -/
def Pagination.offset? (p : Pagination) : Option Nat :=
  (usizeSub p.pageD 1).map (fun d => d * p.sizeD)

/-- struct DtoQuery<T>, src/dto/query.rs. -/
structure DtoQuery (F : Type) where
  page : Option Nat
  size : Option Nat
  sort : Option String
  order : Option String
  filter : Option F

/-- DtoQuery::default_query(). -/
def DtoQuery.default_query {F : Type} : DtoQuery F :=
  { page := some 1, size := some 10, sort := none, order := none, filter := none }

/-- DtoQuery::page(): page.unwrap_or(1). -/
def DtoQuery.pageD {F : Type} (q : DtoQuery F) : Nat := q.page.getD 1

/-- DtoQuery::size(): size.unwrap_or(10). -/
def DtoQuery.sizeD {F : Type} (q : DtoQuery F) : Nat := q.size.getD 10

/-- DtoQuery::offset(): (page() - 1) * size() in usize arithmetic. -/
def DtoQuery.offset? {F : Type} (q : DtoQuery F) : Option Nat :=
  (usizeSub q.pageD 1).map (fun d => d * q.sizeD)

/-- struct UserFilterQuery, src/dto/query.rs. -/
structure UserFilterQuery where
  user_group_id : Option Nat
deriving DecidableEq

/-- A concrete configuration used for closed-form evaluations. -/
def testSettings : Settings :=
  { application := { port := 80, host := "127.0.0.1", base_url := "http://localhost" },
    routes := { health_check := "health_check", user_groups := "user_groups",
                user_group := "user_group", users := "users", user := "user",
                tweets := "tweets", tweet := "tweet", user_tweets := "user_tweets" } }

/-- struct User, src/models/user.rs (Uuid as Nat, OffsetDateTime as Nat). -/
structure User where
  id : Nat
  username : String
  password_hash : String
  created_at : Option Nat
  user_group_id : Option Nat
deriving DecidableEq

/-- struct UserGroup, src/models/user_group.rs. -/
structure UserGroup where
  id : Nat
  group_name : String
  created_at : Option Nat
deriving DecidableEq

/-- struct Permission, src/models/permission.rs. -/
structure Permission where
  id : Nat
  name : String
  description : Option String
  created_at : Option Nat
deriving DecidableEq

/-- struct Tweet, src/models/tweet.rs. -/
structure Tweet where
  id : Nat
  content : String
  created_at : Option Nat
  updated_at : Option Nat
  user_id : Nat
deriving DecidableEq

/-- struct UserPermission, src/models/user_permission.rs (composite key). -/
structure UserPermission where
  user_id : Nat
  permission_id : Nat
  created_at : Option Nat
deriving DecidableEq

/-- struct GroupPermission, src/models/group_permission.rs (composite key). -/
structure GroupPermission where
  group_id : Nat
  permission_id : Nat
  created_at : Option Nat
deriving DecidableEq

/-- The relational store: one list per table, in primary-key insertion order,
plus a counter modelling the value generator for column defaults
(now() timestamps, generated ids). -/
structure Db where
  users : List User
  user_groups : List UserGroup
  permissions : List Permission
  tweets : List Tweet
  user_permissions : List UserPermission
  group_permissions : List GroupPermission
  clock : Nat
deriving DecidableEq

/-- Store-level statement failures surfaced by sqlx: RowNotFound from
fetch_one on zero rows, constraint violations, and a connection-level
fault of the transaction's connection (the failure mode of statements with
no data-dependent failure, such as the bulk deletes run through
fetch_all). -/
inductive SqlError where
  | rowNotFound
  | uniqueViolation
  | connectionFailure
deriving DecidableEq

/-- INSERT .. VALUES .. RETURNING, run through fetch_one: fails on a
uniqueness-constraint violation, otherwise appends the row and returns it. -/
def sqlInsertUnique {ρ : Type} (l : List ρ) (dup : ρ → Bool) (row : ρ) :
    Except SqlError (ρ × List ρ) :=
  if l.any dup then .error .uniqueViolation else .ok (row, l ++ [row])

/-- UPDATE .. WHERE p RETURNING, run through fetch_one: RowNotFound when no
row matches, otherwise returns the (first) updated row and the new table. -/
def sqlUpdateReturning {ρ : Type} (l : List ρ) (p : ρ → Bool) (f : ρ → ρ) :
    Except SqlError (ρ × List ρ) :=
  match l.find? p with
  | none => .error .rowNotFound
  | some r => .ok (f r, l.map (fun x => if p x then f x else x))

/-- DELETE .. WHERE p RETURNING, run through fetch_one: RowNotFound when no
row matches, otherwise returns the (first) deleted row and the new table. -/
def sqlDeleteOneReturning {ρ : Type} (l : List ρ) (p : ρ → Bool) :
    Except SqlError (ρ × List ρ) :=
  match l.find? p with
  | none => .error .rowNotFound
  | some r => .ok (r, l.filter (fun x => !(p x)))

/-- DELETE .. WHERE p RETURNING, run through fetch_all: on success it
returns the deleted rows (possibly none, a partial match is not an error)
and the new table.  The statement has no data-dependent failure under the
modelled constraints, but fetch_all still returns a Result whose error the
source propagates with ? before the commit: that store/connection-level
fault of the transaction's connection is the explicit boolean argument. -/
def sqlDeleteAllReturning {ρ : Type} (conn_fault : Bool) (l : List ρ) (p : ρ → Bool) :
    Except SqlError (List ρ × List ρ) :=
  if conn_fault then .error .connectionFailure
  else .ok (l.filter p, l.filter (fun x => !(p x)))

/-- Outcome of a data-access operation that owns its transaction: the value
or error returned to the caller, the durable store state after the
transaction has been committed or dropped, and how many times commit() ran. -/
structure TxOutcome (ρ : Type) where
  result : Except SqlError ρ
  durable : Db
  commits : Nat

/-- insert_user (src/mappers/user.rs, 104-135): one INSERT .. RETURNING via
fetch_one, then transaction.commit(); the ? operator returns any statement
error before the commit call is reached. -/
def insert_user_stmt (db : Db) (u : User) : Except SqlError (User × List User) :=
  sqlInsertUnique db.users (fun r => r.id == u.id)
    { u with created_at := some db.clock }

def insert_user (db : Db) (u : User) : TxOutcome User :=
  match insert_user_stmt db u with
  | .error e => { result := .error e, durable := db, commits := 0 }
  | .ok rt =>
      { result := .ok rt.1,
        durable := { db with users := rt.2, clock := db.clock + 1 }, commits := 1 }

/-- update_user (src/mappers/user.rs, 167-199): UPDATE .. RETURNING via
fetch_one, then commit. -/
def update_user_stmt (db : Db) (u : User) : Except SqlError (User × List User) :=
  sqlUpdateReturning db.users (fun r => r.id == u.id)
    (fun r =>
      { r with
        username := u.username
        password_hash := u.password_hash
        user_group_id := u.user_group_id })

def update_user (db : Db) (u : User) : TxOutcome User :=
  match update_user_stmt db u with
  | .error e => { result := .error e, durable := db, commits := 0 }
  | .ok rt =>
      { result := .ok rt.1, durable := { db with users := rt.2 }, commits := 1 }

/-- delete_user_by_id (src/mappers/user.rs, 137-165). -/
def delete_user_by_id_stmt (db : Db) (id : Nat) : Except SqlError (User × List User) :=
  sqlDeleteOneReturning db.users (fun r => r.id == id)

def delete_user_by_id (db : Db) (id : Nat) : TxOutcome User :=
  match delete_user_by_id_stmt db id with
  | .error e => { result := .error e, durable := db, commits := 0 }
  | .ok rt =>
      { result := .ok rt.1, durable := { db with users := rt.2 }, commits := 1 }

/-- delete_users_by_ids (src/mappers/user.rs, 201-234): DELETE WHERE
id = ANY($1) RETURNING via fetch_all (success even on a partial match),
then commit; the ? after fetch_all returns a statement error before the
commit call is reached. -/
def delete_users_by_ids_stmt (db : Db) (conn_fault : Bool) (ids : List Nat) :
    Except SqlError (List User × List User) :=
  sqlDeleteAllReturning conn_fault db.users (fun r => ids.contains r.id)

def delete_users_by_ids (db : Db) (conn_fault : Bool) (ids : List Nat) :
    TxOutcome (List User) :=
  match delete_users_by_ids_stmt db conn_fault ids with
  | .error e => { result := .error e, durable := db, commits := 0 }
  | .ok rt =>
      { result := .ok rt.1, durable := { db with users := rt.2 }, commits := 1 }

/-- insert_user_group (src/mappers/user_group.rs, 48-71): match on the
INSERT result, committing only in the Ok arm. -/
def insert_user_group_stmt (db : Db) (g : UserGroup) :
    Except SqlError (UserGroup × List UserGroup) :=
  sqlInsertUnique db.user_groups (fun r => r.id == g.id)
    { id := g.id, group_name := g.group_name, created_at := some db.clock }

def insert_user_group (db : Db) (g : UserGroup) : TxOutcome UserGroup :=
  match insert_user_group_stmt db g with
  | .error e => { result := .error e, durable := db, commits := 0 }
  | .ok rt =>
      { result := .ok rt.1,
        durable := { db with user_groups := rt.2, clock := db.clock + 1 }, commits := 1 }

/-- update_user_group (src/mappers/user_group.rs, 100-121): UPDATE SET
group_name WHERE id RETURNING, committing only in the Ok arm. -/
def update_user_group_stmt (db : Db) (g : UserGroup) :
    Except SqlError (UserGroup × List UserGroup) :=
  sqlUpdateReturning db.user_groups (fun r => r.id == g.id)
    (fun r => { r with group_name := g.group_name })

def update_user_group (db : Db) (g : UserGroup) : TxOutcome UserGroup :=
  match update_user_group_stmt db g with
  | .error e => { result := .error e, durable := db, commits := 0 }
  | .ok rt =>
      { result := .ok rt.1, durable := { db with user_groups := rt.2 }, commits := 1 }

/-- delete_user_group_by_id (src/mappers/user_group.rs, 73-98). -/
def delete_user_group_by_id_stmt (db : Db) (id : Nat) :
    Except SqlError (UserGroup × List UserGroup) :=
  sqlDeleteOneReturning db.user_groups (fun r => r.id == id)

def delete_user_group_by_id (db : Db) (id : Nat) : TxOutcome UserGroup :=
  match delete_user_group_by_id_stmt db id with
  | .error e => { result := .error e, durable := db, commits := 0 }
  | .ok rt =>
      { result := .ok rt.1, durable := { db with user_groups := rt.2 }, commits := 1 }

/-- insert_permission (src/mappers/permission.rs, 84-109): the INSERT passes
all four columns, created_at included, from the argument. -/
def insert_permission_stmt (db : Db) (p : Permission) :
    Except SqlError (Permission × List Permission) :=
  sqlInsertUnique db.permissions (fun r => r.id == p.id) p

def insert_permission (db : Db) (p : Permission) : TxOutcome Permission :=
  match insert_permission_stmt db p with
  | .error e => { result := .error e, durable := db, commits := 0 }
  | .ok rt =>
      { result := .ok rt.1, durable := { db with permissions := rt.2 }, commits := 1 }

/-- update_permission (src/mappers/permission.rs, 135-160): UPDATE SET name,
description WHERE id RETURNING via fetch_one, then commit. -/
def update_permission_stmt (db : Db) (p : Permission) :
    Except SqlError (Permission × List Permission) :=
  sqlUpdateReturning db.permissions (fun r => r.id == p.id)
    (fun r => { r with name := p.name, description := p.description })

def update_permission (db : Db) (p : Permission) : TxOutcome Permission :=
  match update_permission_stmt db p with
  | .error e => { result := .error e, durable := db, commits := 0 }
  | .ok rt =>
      { result := .ok rt.1, durable := { db with permissions := rt.2 }, commits := 1 }

/-- delete_permission_by_id (src/mappers/permission.rs, 111-133). -/
def delete_permission_by_id_stmt (db : Db) (id : Nat) :
    Except SqlError (Permission × List Permission) :=
  sqlDeleteOneReturning db.permissions (fun r => r.id == id)

def delete_permission_by_id (db : Db) (id : Nat) : TxOutcome Permission :=
  match delete_permission_by_id_stmt db id with
  | .error e => { result := .error e, durable := db, commits := 0 }
  | .ok rt =>
      { result := .ok rt.1, durable := { db with permissions := rt.2 }, commits := 1 }

/-- insert_tweet (src/mappers/tweet.rs, 125-154): the store generates the id
and both timestamps; the primary-key check is on the generated id. -/
def insert_tweet_stmt (db : Db) (t : Tweet) : Except SqlError (Tweet × List Tweet) :=
  sqlInsertUnique db.tweets (fun r => r.id == db.clock)
    { id := db.clock
      content := t.content
      created_at := some db.clock
      updated_at := some db.clock
      user_id := t.user_id }

def insert_tweet (db : Db) (t : Tweet) : TxOutcome Tweet :=
  match insert_tweet_stmt db t with
  | .error e => { result := .error e, durable := db, commits := 0 }
  | .ok rt =>
      { result := .ok rt.1,
        durable := { db with tweets := rt.2, clock := db.clock + 1 }, commits := 1 }

/-- update_tweet (src/mappers/tweet.rs, 186-215): UPDATE SET content,
updated_at = now() WHERE id RETURNING, then commit. -/
def update_tweet_stmt (db : Db) (t : Tweet) : Except SqlError (Tweet × List Tweet) :=
  sqlUpdateReturning db.tweets (fun r => r.id == t.id)
    (fun r => { r with content := t.content, updated_at := some db.clock })

def update_tweet (db : Db) (t : Tweet) : TxOutcome Tweet :=
  match update_tweet_stmt db t with
  | .error e => { result := .error e, durable := db, commits := 0 }
  | .ok rt =>
      { result := .ok rt.1,
        durable := { db with tweets := rt.2, clock := db.clock + 1 }, commits := 1 }

/-- delete_tweet_by_id (src/mappers/tweet.rs, 156-184). -/
def delete_tweet_by_id_stmt (db : Db) (id : Nat) : Except SqlError (Tweet × List Tweet) :=
  sqlDeleteOneReturning db.tweets (fun r => r.id == id)

def delete_tweet_by_id (db : Db) (id : Nat) : TxOutcome Tweet :=
  match delete_tweet_by_id_stmt db id with
  | .error e => { result := .error e, durable := db, commits := 0 }
  | .ok rt =>
      { result := .ok rt.1, durable := { db with tweets := rt.2 }, commits := 1 }

/-- insert_user_permission (src/mappers/user_permission.rs, 71-94):
composite primary key (user_id, permission_id); created_at defaulted by the
store; commit only in the Ok arm. -/
def insert_user_permission_stmt (db : Db) (up : UserPermission) :
    Except SqlError (UserPermission × List UserPermission) :=
  sqlInsertUnique db.user_permissions
    (fun r => r.user_id == up.user_id && r.permission_id == up.permission_id)
    { user_id := up.user_id
      permission_id := up.permission_id
      created_at := some db.clock }

def insert_user_permission (db : Db) (up : UserPermission) : TxOutcome UserPermission :=
  match insert_user_permission_stmt db up with
  | .error e => { result := .error e, durable := db, commits := 0 }
  | .ok rt =>
      { result := .ok rt.1,
        durable := { db with user_permissions := rt.2, clock := db.clock + 1 },
        commits := 1 }

/-- delete_user_permission (src/mappers/user_permission.rs, 96-123). -/
def delete_user_permission_stmt (db : Db) (uid pid : Nat) :
    Except SqlError (UserPermission × List UserPermission) :=
  sqlDeleteOneReturning db.user_permissions
    (fun r => r.user_id == uid && r.permission_id == pid)

def delete_user_permission (db : Db) (uid pid : Nat) : TxOutcome UserPermission :=
  match delete_user_permission_stmt db uid pid with
  | .error e => { result := .error e, durable := db, commits := 0 }
  | .ok rt =>
      { result := .ok rt.1, durable := { db with user_permissions := rt.2 }, commits := 1 }

/-- delete_user_permissions_by_user_id (src/mappers/user_permission.rs,
125-144): bulk DELETE via fetch_all with ? before the commit. -/
def delete_user_permissions_by_user_id_stmt (db : Db) (conn_fault : Bool) (uid : Nat) :
    Except SqlError (List UserPermission × List UserPermission) :=
  sqlDeleteAllReturning conn_fault db.user_permissions (fun r => r.user_id == uid)

def delete_user_permissions_by_user_id (db : Db) (conn_fault : Bool) (uid : Nat) :
    TxOutcome (List UserPermission) :=
  match delete_user_permissions_by_user_id_stmt db conn_fault uid with
  | .error e => { result := .error e, durable := db, commits := 0 }
  | .ok rt =>
      { result := .ok rt.1, durable := { db with user_permissions := rt.2 }, commits := 1 }

/-- delete_user_permissions_by_permission_id (src/mappers/user_permission.rs,
146-165). -/
def delete_user_permissions_by_permission_id_stmt (db : Db) (conn_fault : Bool)
    (pid : Nat) : Except SqlError (List UserPermission × List UserPermission) :=
  sqlDeleteAllReturning conn_fault db.user_permissions (fun r => r.permission_id == pid)

def delete_user_permissions_by_permission_id (db : Db) (conn_fault : Bool) (pid : Nat) :
    TxOutcome (List UserPermission) :=
  match delete_user_permissions_by_permission_id_stmt db conn_fault pid with
  | .error e => { result := .error e, durable := db, commits := 0 }
  | .ok rt =>
      { result := .ok rt.1, durable := { db with user_permissions := rt.2 }, commits := 1 }

/-- insert_group_permission (src/mappers/group_permission.rs, 71-94). -/
def insert_group_permission_stmt (db : Db) (gp : GroupPermission) :
    Except SqlError (GroupPermission × List GroupPermission) :=
  sqlInsertUnique db.group_permissions
    (fun r => r.group_id == gp.group_id && r.permission_id == gp.permission_id)
    { group_id := gp.group_id
      permission_id := gp.permission_id
      created_at := some db.clock }

def insert_group_permission (db : Db) (gp : GroupPermission) : TxOutcome GroupPermission :=
  match insert_group_permission_stmt db gp with
  | .error e => { result := .error e, durable := db, commits := 0 }
  | .ok rt =>
      { result := .ok rt.1,
        durable := { db with group_permissions := rt.2, clock := db.clock + 1 },
        commits := 1 }

/-- delete_group_permission (src/mappers/group_permission.rs, 96-123). -/
def delete_group_permission_stmt (db : Db) (gid pid : Nat) :
    Except SqlError (GroupPermission × List GroupPermission) :=
  sqlDeleteOneReturning db.group_permissions
    (fun r => r.group_id == gid && r.permission_id == pid)

def delete_group_permission (db : Db) (gid pid : Nat) : TxOutcome GroupPermission :=
  match delete_group_permission_stmt db gid pid with
  | .error e => { result := .error e, durable := db, commits := 0 }
  | .ok rt =>
      { result := .ok rt.1, durable := { db with group_permissions := rt.2 }, commits := 1 }

/-- delete_group_permissions_by_group_id (src/mappers/group_permission.rs,
125-144): bulk DELETE via fetch_all with ? before the commit. -/
def delete_group_permissions_by_group_id_stmt (db : Db) (conn_fault : Bool) (gid : Nat) :
    Except SqlError (List GroupPermission × List GroupPermission) :=
  sqlDeleteAllReturning conn_fault db.group_permissions (fun r => r.group_id == gid)

def delete_group_permissions_by_group_id (db : Db) (conn_fault : Bool) (gid : Nat) :
    TxOutcome (List GroupPermission) :=
  match delete_group_permissions_by_group_id_stmt db conn_fault gid with
  | .error e => { result := .error e, durable := db, commits := 0 }
  | .ok rt =>
      { result := .ok rt.1, durable := { db with group_permissions := rt.2 }, commits := 1 }

/-- delete_group_permissions_by_permission_id (src/mappers/group_permission.rs,
146-165). -/
def delete_group_permissions_by_permission_id_stmt (db : Db) (conn_fault : Bool)
    (pid : Nat) : Except SqlError (List GroupPermission × List GroupPermission) :=
  sqlDeleteAllReturning conn_fault db.group_permissions (fun r => r.permission_id == pid)

def delete_group_permissions_by_permission_id (db : Db) (conn_fault : Bool) (pid : Nat) :
    TxOutcome (List GroupPermission) :=
  match delete_group_permissions_by_permission_id_stmt db conn_fault pid with
  | .error e => { result := .error e, durable := db, commits := 0 }
  | .ok rt =>
      { result := .ok rt.1, durable := { db with group_permissions := rt.2 }, commits := 1 }

/-- The commit discipline of a mutating operation run against durable state
db: either the single statement succeeded and the transaction was committed
exactly once before the rows were returned, or the operation returned the
error, never committed, and left the durable state untouched. -/
def MutDiscipline {ρ : Type} (db : Db) (r : TxOutcome ρ) : Prop :=
  (r.result.isOk = true ∧ r.commits = 1)
  ∨ (r.result.isOk = false ∧ r.commits = 0 ∧ r.durable = db)

/-- struct DtoResponse<T>, src/dto/response.rs. -/
structure DtoResponse (α : Type) where
  pagination : Option Pagination
  data : α

/-- DtoResponse::new. -/
def DtoResponse.new {α : Type} (data : α) (pagination : Option Pagination) :
    DtoResponse α :=
  { pagination := pagination, data := data }

def insertByKey {ρ : Type} (key : ρ → Nat) (x : ρ) : List ρ → List ρ
  | [] => [x]
  | y :: ys => if key x ≤ key y then x :: y :: ys else y :: insertByKey key x ys

/-- ORDER BY key ascending, modelled as an insertion sort (structurally
recursive so that concrete queries evaluate inside the kernel). -/
def orderByKey {ρ : Type} (key : ρ → Nat) : List ρ → List ρ
  | [] => []
  | x :: xs => insertByKey key x (orderByKey key xs)

/-- get_all_users (src/mappers/user.rs, 9-58).  The count query is the bare
SELECT COUNT(*) FROM users, with no WHERE clause.  The data query predicate
user_group_id IS NOT DISTINCT FROM $1 is exactly Option equality: with the
sub-field unset the bound parameter is NULL and only rows whose
user_group_id is NULL match.  The result is none when offset() underflows
(page = Some 0). -/
def get_all_users (c : Settings) (db : Db) (q : DtoQuery UserFilterQuery) :
    Option (DtoResponse (List User)) :=
  q.offset?.map (fun offset =>
    let limit := q.sizeD
    let total : Option Int := some (db.users.length : Int)
    let group_id : Option Nat :=
      match q.filter with
      | some f => f.user_group_id
      | none => none
    let rows :=
      ((orderByKey User.id (db.users.filter
          (fun r => r.user_group_id == group_id))).drop offset).take limit
    DtoResponse.new rows
      (some (Pagination.new c (some q.pageD) (some q.sizeD) total)))

/-- get_tweets_by_user_id (src/mappers/tweet.rs, 78-123).  Both the count
query and the data query carry the same WHERE user_id = $1 predicate. -/
def get_tweets_by_user_id (c : Settings) (db : Db) (user_id : Nat)
    (q : DtoQuery Unit) : Option (DtoResponse (List Tweet)) :=
  q.offset?.map (fun offset =>
    let limit := q.sizeD
    let total : Option Int :=
      some ((db.tweets.filter (fun r => r.user_id == user_id)).length : Int)
    let rows :=
      ((orderByKey Tweet.id (db.tweets.filter
          (fun r => r.user_id == user_id))).drop offset).take limit
    DtoResponse.new rows
      (some (Pagination.new c (some q.pageD) (some q.sizeD) total)))

/-- struct PermissionFilterQuery, src/dto/query.rs (no fields). -/
structure PermissionFilterQuery

/-- struct UserPermissionFilterQuery, src/dto/query.rs (no fields). -/
structure UserPermissionFilterQuery

def insertByKey2 {ρ : Type} (key : ρ → Nat × Nat) (x : ρ) : List ρ → List ρ
  | [] => [x]
  | y :: ys =>
      if (key x).1 < (key y).1 ∨ ((key x).1 = (key y).1 ∧ (key x).2 ≤ (key y).2) then
        x :: y :: ys
      else y :: insertByKey2 key x ys

/-- ORDER BY a two-column key ascending (lexicographic), again as an
insertion sort. -/
def orderByKey2 {ρ : Type} (key : ρ → Nat × Nat) : List ρ → List ρ
  | [] => []
  | x :: xs => insertByKey2 key x (orderByKey2 key xs)

/-- get_all_groups (src/mappers/user_group.rs, 10-36): unfiltered COUNT(*)
and an unfiltered data query ORDER BY id (count and data share the empty
predicate). -/
def get_all_groups (c : Settings) (db : Db) (q : DtoQuery Unit) :
    Option (DtoResponse (List UserGroup)) :=
  q.offset?.map (fun offset =>
    let limit := q.sizeD
    let total : Option Int := some (db.user_groups.length : Int)
    let rows := ((orderByKey UserGroup.id db.user_groups).drop offset).take limit
    DtoResponse.new rows
      (some (Pagination.new c (some q.pageD) (some q.sizeD) total)))

/-- get_all_permissions (src/mappers/permission.rs, 10-42): unfiltered
COUNT(*) and an unfiltered data query ORDER BY id. -/
def get_all_permissions (c : Settings) (db : Db) (q : DtoQuery PermissionFilterQuery) :
    Option (DtoResponse (List Permission)) :=
  q.offset?.map (fun offset =>
    let limit := q.sizeD
    let total : Option Int := some (db.permissions.length : Int)
    let rows := ((orderByKey Permission.id db.permissions).drop offset).take limit
    DtoResponse.new rows
      (some (Pagination.new c (some q.pageD) (some q.sizeD) total)))

/-- get_all_tweets (src/mappers/tweet.rs, 9-52): unfiltered COUNT(*) and an
unfiltered data query ORDER BY id. -/
def get_all_tweets (c : Settings) (db : Db) (q : DtoQuery Unit) :
    Option (DtoResponse (List Tweet)) :=
  q.offset?.map (fun offset =>
    let limit := q.sizeD
    let total : Option Int := some (db.tweets.length : Int)
    let rows := ((orderByKey Tweet.id db.tweets).drop offset).take limit
    DtoResponse.new rows
      (some (Pagination.new c (some q.pageD) (some q.sizeD) total)))

/-- get_all_user_permissions (src/mappers/user_permission.rs, 10-37):
unfiltered COUNT(*) and an unfiltered data query ORDER BY user_id,
permission_id. -/
def get_all_user_permissions (c : Settings) (db : Db)
    (q : DtoQuery UserPermissionFilterQuery) :
    Option (DtoResponse (List UserPermission)) :=
  q.offset?.map (fun offset =>
    let limit := q.sizeD
    let total : Option Int := some (db.user_permissions.length : Int)
    let rows :=
      ((orderByKey2 (fun r => (r.user_id, r.permission_id))
          db.user_permissions).drop offset).take limit
    DtoResponse.new rows
      (some (Pagination.new c (some q.pageD) (some q.sizeD) total)))

/-- get_all_group_permissions (src/mappers/group_permission.rs, 10-37):
unfiltered COUNT(*) and an unfiltered data query ORDER BY group_id,
permission_id. -/
def get_all_group_permissions (c : Settings) (db : Db) (q : DtoQuery Unit) :
    Option (DtoResponse (List GroupPermission)) :=
  q.offset?.map (fun offset =>
    let limit := q.sizeD
    let total : Option Int := some (db.group_permissions.length : Int)
    let rows :=
      ((orderByKey2 (fun r => (r.group_id, r.permission_id))
          db.group_permissions).drop offset).take limit
    DtoResponse.new rows
      (some (Pagination.new c (some q.pageD) (some q.sizeD) total)))

/-- An empty store. -/
def dbEmpty : Db :=
  { users := [], user_groups := [], permissions := [], tweets := [],
    user_permissions := [], group_permissions := [], clock := 0 }

def alice : User :=
  { id := 1, username := "alice", password_hash := "h1", created_at := none,
    user_group_id := some 7 }

def bob : User :=
  { id := 2, username := "bob", password_hash := "h2", created_at := none,
    user_group_id := none }

def dbTwoUsers : Db := { dbEmpty with users := [alice, bob] }

def carol : User :=
  { id := 3, username := "carol", password_hash := "h3", created_at := none,
    user_group_id := some 1 }

def dave : User :=
  { id := 4, username := "dave", password_hash := "h4", created_at := none,
    user_group_id := some 2 }

def dbGrouped : Db := { dbEmpty with users := [carol, dave] }

def qGroup1 : DtoQuery UserFilterQuery :=
  { page := some 1, size := some 10, sort := none, order := none,
    filter := some { user_group_id := some 1 } }

def qPage2 : DtoQuery UserFilterQuery :=
  { page := some 2, size := some 10, sort := none, order := none, filter := none }

/-- A value stored in the actix session (login inserts a string and a Uuid). -/
inductive SessionValue where
  | str (s : String)
  | uuid (id : Nat)
deriving DecidableEq

/-- The session entries, as returned by session.entries(). -/
abbrev SessionState := List (String × SessionValue)

/-- session.insert(key, value): replaces any existing entry for the key. -/
def sessionInsert (s : SessionState) (k : String) (v : SessionValue) : SessionState :=
  s.filter (fun e => e.1 != k) ++ [(k, v)]

def sessionLookup (s : SessionState) (k : String) : Option SessionValue :=
  (s.find? (fun e => e.1 == k)).map (fun e => e.2)

/-- get_user_by_username (src/mappers/user.rs, 79-102): a read-only
fetch_one, failing with RowNotFound when no user carries the username; no
commit is performed. -/
def get_user_by_username (db : Db) (username : String) : Except SqlError User :=
  match db.users.find? (fun r => r.username == username) with
  | some r => .ok r
  | none => .error .rowNotFound

/-- check_user_password_correct (src/mappers/user.rs, 252-268): SELECT
EXISTS(SELECT 1 FROM users WHERE id = $1 AND password_hash = $2). -/
def check_user_password_correct (db : Db) (user_id : Nat) (password_hash : String) :
    Bool :=
  db.users.any (fun r => r.id == user_id && r.password_hash == password_hash)

/-- The three HTTP responses the login handler can produce. -/
inductive LoginResponse where
  | ok (entries : SessionState)
  | unauthorized (body : String)
  | badRequest (body : String)
deriving DecidableEq

def LoginResponse.status : LoginResponse → Nat
  | .ok _ => 200
  | .unauthorized _ => 401
  | .badRequest _ => 400

structure LoginOutcome where
  response : LoginResponse
  session : SessionState
  commits : Nat
deriving DecidableEq

/-- login (src/routes/auth.rs, 31-74): two sequential reads on one
transaction; user not found gives HttpResponse::BadRequest with the error
text, a password mismatch gives HttpResponse::Unauthorized with the
UserPasswordInvalid display text, and a match writes username and user_id
into the session and returns its entries; no branch calls commit (the body
strings of the two failure responses are abstracted to fixed texts). -/
def login (db : Db) (session : SessionState) (username password : String) :
    LoginOutcome :=
  match get_user_by_username db username with
  | .error _ =>
      { response := .badRequest "Failed to fetch user by username",
        session := session, commits := 0 }
  | .ok user =>
      if check_user_password_correct db user.id password then
        let s1 := sessionInsert session "username" (.str user.username)
        let s2 := sessionInsert s1 "user_id" (.uuid user.id)
        { response := .ok s2, session := s2, commits := 0 }
      else
        { response := .unauthorized "User password is invalid.",
          session := session, commits := 0 }

def root_user : User :=
  { id := 9, username := "root", password_hash := "pw", created_at := none,
    user_group_id := none }

def dbRoot : Db := { dbEmpty with users := [root_user] }

/-- AlohaError (src/error.rs), restricted to the variant the update routes
produce; the message string of DatabaseError is abstracted to the underlying
store error. -/
inductive AlohaError where
  | DatabaseError (e : SqlError)
deriving DecidableEq

/-- update_permission_route (src/routes/permission.rs, 211-220): opens a
transaction, calls update_permission and maps any failure to DatabaseError;
it never performs an insert. -/
def update_permission_route (db : Db) (body : Permission) :
    Except AlohaError Permission × Db :=
  let r := update_permission db body
  match r.result with
  | .ok result => (.ok result, r.durable)
  | .error e => (.error (.DatabaseError e), r.durable)

/-- update_user_group_route (src/routes/user_group.rs, 204-212). -/
def update_user_group_route (db : Db) (body : UserGroup) :
    Except AlohaError UserGroup × Db :=
  let r := update_user_group db body
  match r.result with
  | .ok result => (.ok result, r.durable)
  | .error e => (.error (.DatabaseError e), r.durable)

def perm5 : Permission :=
  { id := 5, name := "read", description := none, created_at := none }

theorem i64AsUsize_of_nonneg {t : Int} (h0 : 0 ≤ t) (h1 : t < 2 ^ 63) :
    (i64AsUsize t : Int) = t := by
  unfold i64AsUsize
  have hmod : t.emod (2 ^ 64) = t := Int.emod_eq_of_lt h0 (by omega)
  rw [hmod]
  exact Int.toNat_of_nonneg h0

theorem Pagination.new_prev_page (c : Settings) (page size : Option Nat)
    (total : Option Int) :
    (Pagination.new c page size total).prev_page =
      if 1 < page.getD 1 then
        some (pageLink c c.routes.user_groups (page.getD 1 - 1) (size.getD 10))
      else none := rfl

theorem Pagination.new_next_page (c : Settings) (page size : Option Nat)
    (total : Option Int) :
    (Pagination.new c page size total).next_page =
      if page.getD 1 * size.getD 10 < i64AsUsize (total.getD 0) then
        some (pageLink c c.routes.user_groups (page.getD 1 + 1) (size.getD 10))
      else none := rfl

/-- C2 (counterexample): at total = Some(-1) the cast total as usize wraps to
2^64 - 1, so next_page is present although page * size < total is false. -/
theorem pagination_negative_total_cex :
    (Pagination.new testSettings none none (some (-1))).next_page.isSome = true
    ∧ ¬ ((1 * 10 : Int) < -1) := by
  constructor
  · decide
  · decide

/-- C2 (amended): for every page, size and every nonnegative total in i64
range (which every COUNT(*) result is), the value built by Pagination::new
has prev_page present iff page > 1 and next_page present iff
page * size < total, with page defaulting to 1, size to 10 and total to 0
when unset. -/
theorem pagination_new_links_iff (c : Settings) (page size : Option Nat)
    (total : Option Int) (htot : 0 ≤ total.getD 0) (hrange : total.getD 0 < 2 ^ 63) :
    ((Pagination.new c page size total).prev_page.isSome = true ↔ 1 < page.getD 1)
    ∧ ((Pagination.new c page size total).next_page.isSome = true ↔
        ((page.getD 1 * size.getD 10 : Nat) : Int) < total.getD 0) := by
  have hcast : (i64AsUsize (total.getD 0) : Int) = total.getD 0 :=
    i64AsUsize_of_nonneg htot hrange
  constructor
  · rw [Pagination.new_prev_page]
    by_cases h : 1 < page.getD 1
    · simp [h]
    · simp [h]
  · rw [Pagination.new_next_page]
    by_cases h : page.getD 1 * size.getD 10 < i64AsUsize (total.getD 0)
    · simp only [h, if_true, Option.isSome_some, true_iff]
      rw [← hcast]
      exact_mod_cast h
    · simp only [h, if_false, Option.isSome_none, Bool.false_eq_true, false_iff, not_lt]
      rw [← hcast]
      exact_mod_cast not_lt.mp h

theorem pagination_new_links_iff_witness :
    (0 ≤ ((some (30 : Int)).getD 0) ∧ ((some (30 : Int)).getD 0) < 2 ^ 63)
    ∧ (((Pagination.new testSettings (some 2) (some 10) (some 30)).prev_page.isSome = true
          ↔ 1 < (some 2).getD 1)
        ∧ ((Pagination.new testSettings (some 2) (some 10) (some 30)).next_page.isSome = true
          ↔ (((some 2).getD 1 * (some 10).getD 10 : Nat) : Int) < (some (30 : Int)).getD 0)) :=
  ⟨⟨by decide, by decide⟩,
    pagination_new_links_iff testSettings (some 2) (some 10) (some 30)
      (by decide) (by decide)⟩

/-- C3: for every query with page() ≥ 1 and size() ≥ 1, offset() is defined
and equals (page() - 1) * size(), both for DtoQuery and for Pagination, and
page()/size() return the defaults 1 and 10 when the fields are unset. -/
theorem offset_eq_page_sub_one_mul_size (F : Type) (q : DtoQuery F) (pg : Pagination)
    (hq : 1 ≤ q.pageD) (hqs : 1 ≤ q.sizeD) (hp : 1 ≤ pg.pageD) (hps : 1 ≤ pg.sizeD) :
    q.offset? = some ((q.pageD - 1) * q.sizeD)
    ∧ pg.offset? = some ((pg.pageD - 1) * pg.sizeD)
    ∧ (∀ r : DtoQuery F, r.page = none → r.pageD = 1)
    ∧ (∀ r : DtoQuery F, r.size = none → r.sizeD = 10) := by
  refine ⟨?_, ?_, ?_, ?_⟩
  · simp [DtoQuery.offset?, usizeSub, hq]
  · simp [Pagination.offset?, usizeSub, hp]
  · intro r hr; simp [DtoQuery.pageD, hr]
  · intro r hr; simp [DtoQuery.sizeD, hr]

theorem offset_eq_page_sub_one_mul_size_witness :
    (1 ≤ (DtoQuery.mk (some 3) (some 5) none none none : DtoQuery Unit).pageD)
    ∧ ((DtoQuery.mk (some 3) (some 5) none none none : DtoQuery Unit).offset? = some 10) := by
  have h := offset_eq_page_sub_one_mul_size Unit
    (DtoQuery.mk (some 3) (some 5) none none none)
    (Pagination.mk (some 3) (some 5) (some 0) none none)
    (by decide) (by decide) (by decide) (by decide)
  exact ⟨by decide, h.1⟩

/-- C9: offset() applies the unguarded usize subtraction page() - 1, so it
underflows exactly when the page field is Some(0) (page() = 0); under the
precondition page() ≥ 1 it is total and returns (page() - 1) * size(). -/
theorem offset_underflow_iff_page_zero (F : Type) (q : DtoQuery F) (pg : Pagination) :
    (q.offset? = none ↔ q.page = some 0)
    ∧ (pg.offset? = none ↔ pg.page = some 0)
    ∧ (1 ≤ q.pageD → q.offset? = some ((q.pageD - 1) * q.sizeD))
    ∧ (1 ≤ pg.pageD → pg.offset? = some ((pg.pageD - 1) * pg.sizeD)) := by
  refine ⟨?_, ?_, ?_, ?_⟩
  · cases hq : q.page with
    | none => simp [DtoQuery.offset?, DtoQuery.pageD, usizeSub, hq]
    | some n =>
      cases n with
      | zero => simp [DtoQuery.offset?, DtoQuery.pageD, usizeSub, hq]
      | succ m => simp [DtoQuery.offset?, DtoQuery.pageD, usizeSub, hq]
  · cases hp : pg.page with
    | none => simp [Pagination.offset?, Pagination.pageD, usizeSub, hp]
    | some n =>
      cases n with
      | zero => simp [Pagination.offset?, Pagination.pageD, usizeSub, hp]
      | succ m => simp [Pagination.offset?, Pagination.pageD, usizeSub, hp]
  · intro h; simp [DtoQuery.offset?, usizeSub, h]
  · intro h; simp [Pagination.offset?, usizeSub, h]

theorem offset_underflow_iff_page_zero_witness :
    ((DtoQuery.mk (some 0) (some 10) none none none : DtoQuery Unit).offset? = none)
    ∧ (1 ≤ (DtoQuery.mk (some 2) (some 10) none none none : DtoQuery Unit).pageD
        ∧ (DtoQuery.mk (some 2) (some 10) none none none : DtoQuery Unit).offset? = some 10) := by
  have h0 := offset_underflow_iff_page_zero Unit
    (DtoQuery.mk (some 0) (some 10) none none none)
    (Pagination.mk (some 0) (some 10) (some 0) none none)
  have h2 := offset_underflow_iff_page_zero Unit
    (DtoQuery.mk (some 2) (some 10) none none none)
    (Pagination.mk (some 2) (some 10) (some 0) none none)
  exact ⟨h0.1.mpr rfl, by decide, h2.2.2.1 (by decide)⟩

/-- C10: default_p() returns page = Some 1, size = Some 10, total = Some 0 and
both link fields present as empty strings, although a value built by
Pagination::new from the same page, size and total has both links absent. -/
theorem default_p_fields (c : Settings) :
    Pagination.default_p =
      { page := some 1, size := some 10, total := some 0,
        prev_page := some "", next_page := some "" }
    ∧ (Pagination.new c (some 1) (some 10) (some 0)).prev_page = none
    ∧ (Pagination.new c (some 1) (some 10) (some 0)).next_page = none := by
  have h0 : i64AsUsize 0 = 0 := by decide
  refine ⟨rfl, ?_, ?_⟩
  · rw [Pagination.new_prev_page]
    simp
  · rw [Pagination.new_next_page]
    simp [h0]

/-- C1: every mutating data-access operation (insert, update, delete-by-id,
bulk-delete-by-ids) of every entity either commits its owned transaction
exactly once after its single mutating statement succeeds, or returns the
statement error without committing, leaving the durable state untouched
(the uncommitted transaction rolls back on drop).  The bulk deletes are
quantified over the health of the transaction's connection during
fetch_all, so their statement-failure branch is exercised too. -/
theorem mutating_ops_commit_discipline (db : Db) (conn_fault : Bool) (u : User)
    (g : UserGroup) (p : Permission) (t : Tweet) (up : UserPermission)
    (gp : GroupPermission) (id : Nat) (ids : List Nat) (uid pid gid : Nat) :
    MutDiscipline db (insert_user db u)
    ∧ MutDiscipline db (update_user db u)
    ∧ MutDiscipline db (delete_user_by_id db id)
    ∧ MutDiscipline db (delete_users_by_ids db conn_fault ids)
    ∧ MutDiscipline db (insert_user_group db g)
    ∧ MutDiscipline db (update_user_group db g)
    ∧ MutDiscipline db (delete_user_group_by_id db id)
    ∧ MutDiscipline db (insert_permission db p)
    ∧ MutDiscipline db (update_permission db p)
    ∧ MutDiscipline db (delete_permission_by_id db id)
    ∧ MutDiscipline db (insert_tweet db t)
    ∧ MutDiscipline db (update_tweet db t)
    ∧ MutDiscipline db (delete_tweet_by_id db id)
    ∧ MutDiscipline db (insert_user_permission db up)
    ∧ MutDiscipline db (delete_user_permission db uid pid)
    ∧ MutDiscipline db (delete_user_permissions_by_user_id db conn_fault uid)
    ∧ MutDiscipline db (delete_user_permissions_by_permission_id db conn_fault pid)
    ∧ MutDiscipline db (insert_group_permission db gp)
    ∧ MutDiscipline db (delete_group_permission db gid pid)
    ∧ MutDiscipline db (delete_group_permissions_by_group_id db conn_fault gid)
    ∧ MutDiscipline db (delete_group_permissions_by_permission_id db conn_fault pid) := by
  refine ⟨?_, ?_, ?_, ?_, ?_, ?_, ?_, ?_, ?_, ?_, ?_,
    ?_, ?_, ?_, ?_, ?_, ?_, ?_, ?_, ?_, ?_⟩
  · unfold insert_user
    cases insert_user_stmt db u with
    | error e => exact Or.inr ⟨rfl, rfl, rfl⟩
    | ok rt => exact Or.inl ⟨rfl, rfl⟩
  · unfold update_user
    cases update_user_stmt db u with
    | error e => exact Or.inr ⟨rfl, rfl, rfl⟩
    | ok rt => exact Or.inl ⟨rfl, rfl⟩
  · unfold delete_user_by_id
    cases delete_user_by_id_stmt db id with
    | error e => exact Or.inr ⟨rfl, rfl, rfl⟩
    | ok rt => exact Or.inl ⟨rfl, rfl⟩
  · unfold delete_users_by_ids
    cases delete_users_by_ids_stmt db conn_fault ids with
    | error e => exact Or.inr ⟨rfl, rfl, rfl⟩
    | ok rt => exact Or.inl ⟨rfl, rfl⟩
  · unfold insert_user_group
    cases insert_user_group_stmt db g with
    | error e => exact Or.inr ⟨rfl, rfl, rfl⟩
    | ok rt => exact Or.inl ⟨rfl, rfl⟩
  · unfold update_user_group
    cases update_user_group_stmt db g with
    | error e => exact Or.inr ⟨rfl, rfl, rfl⟩
    | ok rt => exact Or.inl ⟨rfl, rfl⟩
  · unfold delete_user_group_by_id
    cases delete_user_group_by_id_stmt db id with
    | error e => exact Or.inr ⟨rfl, rfl, rfl⟩
    | ok rt => exact Or.inl ⟨rfl, rfl⟩
  · unfold insert_permission
    cases insert_permission_stmt db p with
    | error e => exact Or.inr ⟨rfl, rfl, rfl⟩
    | ok rt => exact Or.inl ⟨rfl, rfl⟩
  · unfold update_permission
    cases update_permission_stmt db p with
    | error e => exact Or.inr ⟨rfl, rfl, rfl⟩
    | ok rt => exact Or.inl ⟨rfl, rfl⟩
  · unfold delete_permission_by_id
    cases delete_permission_by_id_stmt db id with
    | error e => exact Or.inr ⟨rfl, rfl, rfl⟩
    | ok rt => exact Or.inl ⟨rfl, rfl⟩
  · unfold insert_tweet
    cases insert_tweet_stmt db t with
    | error e => exact Or.inr ⟨rfl, rfl, rfl⟩
    | ok rt => exact Or.inl ⟨rfl, rfl⟩
  · unfold update_tweet
    cases update_tweet_stmt db t with
    | error e => exact Or.inr ⟨rfl, rfl, rfl⟩
    | ok rt => exact Or.inl ⟨rfl, rfl⟩
  · unfold delete_tweet_by_id
    cases delete_tweet_by_id_stmt db id with
    | error e => exact Or.inr ⟨rfl, rfl, rfl⟩
    | ok rt => exact Or.inl ⟨rfl, rfl⟩
  · unfold insert_user_permission
    cases insert_user_permission_stmt db up with
    | error e => exact Or.inr ⟨rfl, rfl, rfl⟩
    | ok rt => exact Or.inl ⟨rfl, rfl⟩
  · unfold delete_user_permission
    cases delete_user_permission_stmt db uid pid with
    | error e => exact Or.inr ⟨rfl, rfl, rfl⟩
    | ok rt => exact Or.inl ⟨rfl, rfl⟩
  · unfold delete_user_permissions_by_user_id
    cases delete_user_permissions_by_user_id_stmt db conn_fault uid with
    | error e => exact Or.inr ⟨rfl, rfl, rfl⟩
    | ok rt => exact Or.inl ⟨rfl, rfl⟩
  · unfold delete_user_permissions_by_permission_id
    cases delete_user_permissions_by_permission_id_stmt db conn_fault pid with
    | error e => exact Or.inr ⟨rfl, rfl, rfl⟩
    | ok rt => exact Or.inl ⟨rfl, rfl⟩
  · unfold insert_group_permission
    cases insert_group_permission_stmt db gp with
    | error e => exact Or.inr ⟨rfl, rfl, rfl⟩
    | ok rt => exact Or.inl ⟨rfl, rfl⟩
  · unfold delete_group_permission
    cases delete_group_permission_stmt db gid pid with
    | error e => exact Or.inr ⟨rfl, rfl, rfl⟩
    | ok rt => exact Or.inl ⟨rfl, rfl⟩
  · unfold delete_group_permissions_by_group_id
    cases delete_group_permissions_by_group_id_stmt db conn_fault gid with
    | error e => exact Or.inr ⟨rfl, rfl, rfl⟩
    | ok rt => exact Or.inl ⟨rfl, rfl⟩
  · unfold delete_group_permissions_by_permission_id
    cases delete_group_permissions_by_permission_id_stmt db conn_fault pid with
    | error e => exact Or.inr ⟨rfl, rfl, rfl⟩
    | ok rt => exact Or.inl ⟨rfl, rfl⟩

theorem Pagination.new_total (c : Settings) (page size : Option Nat)
    (total : Option Int) :
    (Pagination.new c page size total).total =
      some (usizeAsI64 (i64AsUsize (total.getD 0))) := rfl

theorem usize_i64_roundtrip (n : Int) (h0 : 0 ≤ n) (h : n < 2 ^ 63) :
    usizeAsI64 (i64AsUsize n) = n := by
  have hm : (i64AsUsize n : Int) = n := i64AsUsize_of_nonneg h0 h
  unfold usizeAsI64
  rw [if_pos]
  · exact hm
  · exact_mod_cast hm ▸ h

/-- C4: the user list with the filter sub-field unset binds NULL into
user_group_id IS NOT DISTINCT FROM $1, so it returns only the rows whose
user_group_id is NULL: alice (user_group_id = Some 7) is in the table but
absent from the default listing, contradicting the documented
"retrieves all users" behaviour. -/
theorem get_all_users_unset_filter_drops_grouped_rows :
    (get_all_users testSettings dbTwoUsers DtoQuery.default_query).map DtoResponse.data
      = some [bob]
    ∧ alice ∈ dbTwoUsers.users := by
  constructor
  · decide
  · decide

/-- C5 (counterexample): with the user_group_id filter set to 1 the user
list returns only the matching row, yet its pagination total is 2, the size
of the whole table, not the filtered count 1. -/
theorem user_list_total_ignores_filter_cex :
    (get_all_users testSettings dbGrouped qGroup1).map
        (fun r => r.pagination.bind Pagination.total) = some (some 2)
    ∧ (get_all_users testSettings dbGrouped qGroup1).map DtoResponse.data = some [carol]
    ∧ (dbGrouped.users.filter (fun r => r.user_group_id == some 1)).length = 1
    ∧ (2 : Int) ≠ 1 := by
  refine ⟨by decide, by decide, by decide, by decide⟩

theorem usize_i64_roundtrip_nat (n : Nat) (h : n < 2 ^ 63) :
    usizeAsI64 (i64AsUsize (n : Int)) = (n : Int) :=
  usize_i64_roundtrip _ (by exact_mod_cast Nat.zero_le n) (by exact_mod_cast h)

/-- C5 (amended): in every list operation except the user list, the total
comes from a count query applying the same predicate as the data query:
the shared user_id predicate for the tweets-by-user list, and the shared
empty predicate for the five unfiltered lists (user groups, permissions,
tweets, user permissions, group permissions).  The user list alone pairs a
data query filtered by user_group_id with an unfiltered COUNT(*) over the
whole users table, so with a set filter its total counts all rows, not
just the matching ones. -/
theorem count_query_predicates (c : Settings) (db : Db)
    (q : DtoQuery UserFilterQuery) (uid : Nat) (qt qg qtw qgp : DtoQuery Unit)
    (qp : DtoQuery PermissionFilterQuery) (qup : DtoQuery UserPermissionFilterQuery)
    (hbound : db.users.length < 2 ^ 63 ∧ db.user_groups.length < 2 ^ 63
      ∧ db.permissions.length < 2 ^ 63 ∧ db.tweets.length < 2 ^ 63
      ∧ db.user_permissions.length < 2 ^ 63 ∧ db.group_permissions.length < 2 ^ 63) :
    (get_all_users c db q).map (fun r => (r.data, r.pagination.bind Pagination.total))
      = q.offset?.map (fun o =>
          (((orderByKey User.id (db.users.filter (fun r =>
              r.user_group_id == (match q.filter with
                | some f => f.user_group_id
                | none => none)))).drop o).take q.sizeD,
            some (db.users.length : Int)))
    ∧ (get_tweets_by_user_id c db uid qt).map
        (fun r => (r.data, r.pagination.bind Pagination.total))
      = qt.offset?.map (fun o =>
          (((orderByKey Tweet.id (db.tweets.filter
              (fun r => r.user_id == uid))).drop o).take qt.sizeD,
            some ((db.tweets.filter (fun r => r.user_id == uid)).length : Int)))
    ∧ (get_all_groups c db qg).map
        (fun r => (r.data, r.pagination.bind Pagination.total))
      = qg.offset?.map (fun o =>
          (((orderByKey UserGroup.id db.user_groups).drop o).take qg.sizeD,
            some (db.user_groups.length : Int)))
    ∧ (get_all_permissions c db qp).map
        (fun r => (r.data, r.pagination.bind Pagination.total))
      = qp.offset?.map (fun o =>
          (((orderByKey Permission.id db.permissions).drop o).take qp.sizeD,
            some (db.permissions.length : Int)))
    ∧ (get_all_tweets c db qtw).map
        (fun r => (r.data, r.pagination.bind Pagination.total))
      = qtw.offset?.map (fun o =>
          (((orderByKey Tweet.id db.tweets).drop o).take qtw.sizeD,
            some (db.tweets.length : Int)))
    ∧ (get_all_user_permissions c db qup).map
        (fun r => (r.data, r.pagination.bind Pagination.total))
      = qup.offset?.map (fun o =>
          (((orderByKey2 (fun r => (r.user_id, r.permission_id))
              db.user_permissions).drop o).take qup.sizeD,
            some (db.user_permissions.length : Int)))
    ∧ (get_all_group_permissions c db qgp).map
        (fun r => (r.data, r.pagination.bind Pagination.total))
      = qgp.offset?.map (fun o =>
          (((orderByKey2 (fun r => (r.group_id, r.permission_id))
              db.group_permissions).drop o).take qgp.sizeD,
            some (db.group_permissions.length : Int))) := by
  obtain ⟨hu, hg, hp, htw, hup, hgp⟩ := hbound
  refine ⟨?_, ?_, ?_, ?_, ?_, ?_, ?_⟩
  · cases ho : q.offset? with
    | none => simp [get_all_users, ho]
    | some o =>
      simp [get_all_users, ho, DtoResponse.new, Pagination.new_total,
        usize_i64_roundtrip_nat _ hu]
  · cases ho : qt.offset? with
    | none => simp [get_tweets_by_user_id, ho]
    | some o =>
      have hlen : (db.tweets.filter (fun r => r.user_id == uid)).length < 2 ^ 63 :=
        lt_of_le_of_lt (List.length_filter_le _ _) htw
      simp [get_tweets_by_user_id, ho, DtoResponse.new, Pagination.new_total,
        usize_i64_roundtrip_nat _ hlen]
  · cases ho : qg.offset? with
    | none => simp [get_all_groups, ho]
    | some o =>
      simp [get_all_groups, ho, DtoResponse.new, Pagination.new_total,
        usize_i64_roundtrip_nat _ hg]
  · cases ho : qp.offset? with
    | none => simp [get_all_permissions, ho]
    | some o =>
      simp [get_all_permissions, ho, DtoResponse.new, Pagination.new_total,
        usize_i64_roundtrip_nat _ hp]
  · cases ho : qtw.offset? with
    | none => simp [get_all_tweets, ho]
    | some o =>
      simp [get_all_tweets, ho, DtoResponse.new, Pagination.new_total,
        usize_i64_roundtrip_nat _ htw]
  · cases ho : qup.offset? with
    | none => simp [get_all_user_permissions, ho]
    | some o =>
      simp [get_all_user_permissions, ho, DtoResponse.new, Pagination.new_total,
        usize_i64_roundtrip_nat _ hup]
  · cases ho : qgp.offset? with
    | none => simp [get_all_group_permissions, ho]
    | some o =>
      simp [get_all_group_permissions, ho, DtoResponse.new, Pagination.new_total,
        usize_i64_roundtrip_nat _ hgp]

theorem count_query_predicates_witness :
    (dbGrouped.users.length < 2 ^ 63 ∧ dbGrouped.user_groups.length < 2 ^ 63
      ∧ dbGrouped.permissions.length < 2 ^ 63 ∧ dbGrouped.tweets.length < 2 ^ 63
      ∧ dbGrouped.user_permissions.length < 2 ^ 63
      ∧ dbGrouped.group_permissions.length < 2 ^ 63)
    ∧ (get_all_users testSettings dbGrouped qGroup1).map
        (fun r => (r.data, r.pagination.bind Pagination.total))
      = qGroup1.offset?.map (fun o =>
          (((orderByKey User.id (dbGrouped.users.filter (fun r =>
              r.user_group_id == (match qGroup1.filter with
                | some f => f.user_group_id
                | none => none)))).drop o).take qGroup1.sizeD,
            some (dbGrouped.users.length : Int))) := by
  constructor
  · exact ⟨by decide, by decide, by decide, by decide, by decide, by decide⟩
  · exact (count_query_predicates testSettings dbGrouped qGroup1 1
      DtoQuery.default_query DtoQuery.default_query DtoQuery.default_query
      DtoQuery.default_query DtoQuery.default_query DtoQuery.default_query
      ⟨by decide, by decide, by decide, by decide, by decide, by decide⟩).1

/-- C8 (counterexample): the prev link built for the user list points at the
configured user_groups collection path, not at the users collection path of
the entity being listed. -/
theorem list_links_entity_path_cex :
    (get_all_users testSettings dbEmpty qPage2).map
        (fun r => r.pagination.map Pagination.prev_page)
      = some (some (some "http://localhost:80/user_groups?page=1&size=10"))
    ∧ pageLink testSettings testSettings.routes.users 1 10
        = "http://localhost:80/users?page=1&size=10"
    ∧ "http://localhost:80/user_groups?page=1&size=10"
        ≠ "http://localhost:80/users?page=1&size=10" := by
  refine ⟨by decide, by decide, by decide⟩

/-- C8 (amended): both links are composed of the configured base URL, port
and the user-groups collection path (for every entity), with page and size
query parameters, and they point at the pages adjacent to the current one:
page - 1 for prev and page + 1 for next; the user list builds its pagination
through exactly this constructor. -/
theorem pagination_links_shared_route_adjacent (c : Settings) (page size : Option Nat)
    (total : Option Int) (db : Db) (q : DtoQuery UserFilterQuery) :
    (Pagination.new c page size total).prev_page
      = (if 1 < page.getD 1 then
          some (pageLink c c.routes.user_groups (page.getD 1 - 1) (size.getD 10))
         else none)
    ∧ (Pagination.new c page size total).next_page
      = (if page.getD 1 * size.getD 10 < i64AsUsize (total.getD 0) then
          some (pageLink c c.routes.user_groups (page.getD 1 + 1) (size.getD 10))
         else none)
    ∧ (get_all_users c db q).map DtoResponse.pagination
      = q.offset?.map (fun _ =>
          some (Pagination.new c (some q.pageD) (some q.sizeD)
            (some (db.users.length : Int)))) := by
  refine ⟨rfl, rfl, ?_⟩
  cases ho : q.offset? with
  | none => simp [get_all_users, ho]
  | some o => simp [get_all_users, ho, DtoResponse.new]

theorem find?_key_filter_ne (t : SessionState) (k : String) :
    (t.filter (fun e => e.1 != k)).find? (fun e => e.1 == k) = none := by
  induction t with
  | nil => rfl
  | cons e t ih =>
    by_cases he : e.1 = k
    · simp [List.filter_cons, he, ih]
    · simp [List.filter_cons, List.find?_cons, he, ih]

theorem find?_key_filter_other (t : SessionState) (k k' : String) (h : k' ≠ k) :
    (t.filter (fun e => e.1 != k)).find? (fun e => e.1 == k')
      = t.find? (fun e => e.1 == k') := by
  induction t with
  | nil => rfl
  | cons e t ih =>
    by_cases he : e.1 = k
    · have hkk : (k == k') = false := by
        simp only [beq_eq_false_iff_ne]
        exact fun hh => h hh.symm
      simp [List.filter_cons, List.find?_cons, he, hkk, ih]
    · by_cases he' : e.1 = k'
      · simp [List.filter_cons, List.find?_cons, he, he', h, ih]
      · simp [List.filter_cons, List.find?_cons, he, he', ih]

theorem sessionLookup_insert (s : SessionState) (k : String) (v : SessionValue) :
    sessionLookup (sessionInsert s k v) k = some v := by
  unfold sessionInsert sessionLookup
  rw [List.find?_append, find?_key_filter_ne]
  simp

theorem sessionLookup_insert_ne (s : SessionState) (k k' : String) (v : SessionValue)
    (h : k' ≠ k) :
    sessionLookup (sessionInsert s k v) k' = sessionLookup s k' := by
  unfold sessionInsert sessionLookup
  rw [List.find?_append, find?_key_filter_other _ _ _ h]
  have hk : ((k, v).1 == k') = false := by
    simp only [beq_eq_false_iff_ne]
    exact fun hh => h hh.symm
  simp [List.find?_cons, hk]

/-- C7: login never commits its transaction, and has exactly three
outcomes: no user with the username gives the 400 invalid-request signal
(distinct from 401), a user whose stored credential does not match gives
the 401 unauthenticated signal, and a match stores the session record
keyed by the user id and username. -/
theorem login_outcomes (db : Db) (sess : SessionState) (u p : String) :
    (login db sess u p).commits = 0
    ∧ (db.users.find? (fun r => r.username == u) = none →
        (login db sess u p).response.status = 400)
    ∧ (∀ user, db.users.find? (fun r => r.username == u) = some user →
        check_user_password_correct db user.id p = false →
        (login db sess u p).response.status = 401)
    ∧ (∀ user, db.users.find? (fun r => r.username == u) = some user →
        check_user_password_correct db user.id p = true →
        (login db sess u p).response.status = 200
        ∧ sessionLookup (login db sess u p).session "user_id"
            = some (.uuid user.id)
        ∧ sessionLookup (login db sess u p).session "username"
            = some (.str user.username)) := by
  refine ⟨?_, ?_, ?_, ?_⟩
  · unfold login get_user_by_username
    cases db.users.find? (fun r => r.username == u) with
    | none => rfl
    | some user =>
      by_cases hpw : check_user_password_correct db user.id p
      · simp [hpw]
      · simp [hpw]
  · intro hfind
    simp [login, get_user_by_username, hfind, LoginResponse.status]
  · intro user hfind hpw
    simp [login, get_user_by_username, hfind, hpw, LoginResponse.status]
  · intro user hfind hpw
    refine ⟨?_, ?_, ?_⟩
    · simp [login, get_user_by_username, hfind, hpw, LoginResponse.status]
    · simp only [login, get_user_by_username, hfind, hpw, if_true]
      exact sessionLookup_insert _ _ _
    · simp only [login, get_user_by_username, hfind, hpw, if_true]
      rw [sessionLookup_insert_ne _ _ _ _ (by decide)]
      exact sessionLookup_insert _ _ _

theorem find?_isSome_eq_any {ρ : Type} (l : List ρ) (p : ρ → Bool) :
    (l.find? p).isSome = l.any p := by
  induction l with
  | nil => rfl
  | cons x xs ih =>
    by_cases hx : p x
    · simp [List.find?_cons, List.any_cons, hx]
    · simp [List.find?_cons, List.any_cons, hx, ih]

theorem map_key_of_cond_update {ρ : Type} (key : ρ → Nat) (l : List ρ)
    (p : ρ → Bool) (f : ρ → ρ) (hf : ∀ x, key (f x) = key x) :
    (l.map (fun x => if p x then f x else x)).map key = l.map key := by
  rw [List.map_map]
  refine List.map_congr_left ?_
  intro a _
  by_cases hp : p a
  · simp [hp, hf]
  · simp [hp]

/-- C6 (counterexample): calling the permission write path with an id for
which no row exists fails with a database error and leaves the table empty;
no row is inserted, so it is not the case that exactly one row exists
afterwards. -/
theorem update_permission_route_no_upsert_cex :
    (update_permission_route dbEmpty perm5).1.isOk = false
    ∧ (update_permission_route dbEmpty perm5).2.permissions.length = 0 := by
  refine ⟨by decide, by decide⟩

/-- C6 (amended): the Permission, User and UserGroup write paths are plain
updates: they succeed exactly when a row with the given id already exists,
they never change the row count or the stored ids (in particular they never
insert), and with an existing id they update that same row in place. -/
theorem update_paths_plain_update (db : Db) (p : Permission) (u : User)
    (g : UserGroup) :
    ((update_permission db p).result.isOk
        = db.permissions.any (fun r => r.id == p.id)
      ∧ (update_permission db p).durable.permissions.length = db.permissions.length
      ∧ (update_permission db p).durable.permissions.map Permission.id
          = db.permissions.map Permission.id)
    ∧ ((update_user db u).result.isOk = db.users.any (fun r => r.id == u.id)
      ∧ (update_user db u).durable.users.length = db.users.length
      ∧ (update_user db u).durable.users.map User.id = db.users.map User.id)
    ∧ ((update_user_group db g).result.isOk
        = db.user_groups.any (fun r => r.id == g.id)
      ∧ (update_user_group db g).durable.user_groups.length = db.user_groups.length
      ∧ (update_user_group db g).durable.user_groups.map UserGroup.id
          = db.user_groups.map UserGroup.id)
    ∧ ((update_permission_route db p).1.isOk
        = db.permissions.any (fun r => r.id == p.id)
      ∧ (update_permission_route db p).2.permissions.length = db.permissions.length)
    ∧ ((update_user_group_route db g).1.isOk
        = db.user_groups.any (fun r => r.id == g.id)
      ∧ (update_user_group_route db g).2.user_groups.length
          = db.user_groups.length) := by
  have hperm : (update_permission db p).result.isOk
        = db.permissions.any (fun r => r.id == p.id)
      ∧ (update_permission db p).durable.permissions.length = db.permissions.length
      ∧ (update_permission db p).durable.permissions.map Permission.id
          = db.permissions.map Permission.id := by
    unfold update_permission update_permission_stmt sqlUpdateReturning
    cases hf : db.permissions.find? (fun r => r.id == p.id) with
    | none =>
      refine ⟨?_, rfl, rfl⟩
      rw [← find?_isSome_eq_any, hf]
      rfl
    | some r =>
      refine ⟨?_, ?_, ?_⟩
      · rw [← find?_isSome_eq_any, hf]
        rfl
      · simp
      · exact map_key_of_cond_update Permission.id db.permissions _ _ (fun x => rfl)
  have huser : (update_user db u).result.isOk = db.users.any (fun r => r.id == u.id)
      ∧ (update_user db u).durable.users.length = db.users.length
      ∧ (update_user db u).durable.users.map User.id = db.users.map User.id := by
    unfold update_user update_user_stmt sqlUpdateReturning
    cases hf : db.users.find? (fun r => r.id == u.id) with
    | none =>
      refine ⟨?_, rfl, rfl⟩
      rw [← find?_isSome_eq_any, hf]
      rfl
    | some r =>
      refine ⟨?_, ?_, ?_⟩
      · rw [← find?_isSome_eq_any, hf]
        rfl
      · simp
      · exact map_key_of_cond_update User.id db.users _ _ (fun x => rfl)
  have hgroup : (update_user_group db g).result.isOk
        = db.user_groups.any (fun r => r.id == g.id)
      ∧ (update_user_group db g).durable.user_groups.length = db.user_groups.length
      ∧ (update_user_group db g).durable.user_groups.map UserGroup.id
          = db.user_groups.map UserGroup.id := by
    unfold update_user_group update_user_group_stmt sqlUpdateReturning
    cases hf : db.user_groups.find? (fun r => r.id == g.id) with
    | none =>
      refine ⟨?_, rfl, rfl⟩
      rw [← find?_isSome_eq_any, hf]
      rfl
    | some r =>
      refine ⟨?_, ?_, ?_⟩
      · rw [← find?_isSome_eq_any, hf]
        rfl
      · simp
      · exact map_key_of_cond_update UserGroup.id db.user_groups _ _ (fun x => rfl)
  refine ⟨hperm, huser, hgroup, ?_, ?_⟩
  · simp only [update_permission_route]
    cases hres : (update_permission db p).result with
    | ok v =>
      have h1 := hperm.1
      rw [hres] at h1
      exact ⟨h1, hperm.2.1⟩
    | error e =>
      have h1 := hperm.1
      rw [hres] at h1
      exact ⟨h1, hperm.2.1⟩
  · simp only [update_user_group_route]
    cases hres : (update_user_group db g).result with
    | ok v =>
      have h1 := hgroup.1
      rw [hres] at h1
      exact ⟨h1, hgroup.2.1⟩
    | error e =>
      have h1 := hgroup.1
      rw [hres] at h1
      exact ⟨h1, hgroup.2.1⟩

theorem login_outcomes_witness :
    (login dbRoot [] "root" "pw").commits = 0
    ∧ (login dbRoot [] "root" "pw").response.status = 200
    ∧ sessionLookup (login dbRoot [] "root" "pw").session "user_id"
        = some (.uuid root_user.id)
    ∧ sessionLookup (login dbRoot [] "root" "pw").session "username"
        = some (.str root_user.username) := by
  have h := login_outcomes dbRoot [] "root" "pw"
  have hfind : dbRoot.users.find? (fun r => r.username == "root") = some root_user := by
    decide
  have hsucc := h.2.2.2 root_user hfind (by decide)
  exact ⟨h.1, hsucc.1, hsucc.2.1, hsucc.2.2⟩

end Aloha
